import Mathlib

/-!
Verification of the OKX DEX service (`lib/OKXDexService.js`) of the
agenpay-okx repository: a shallow embedding of its payment-route
resolution, swap-quote adapter, mock (sandbox) rate tables, swap
execution and audit logging, with theorems settling the specification's
claims about them.

Numbers: the JavaScript source computes amounts with ordinary numeric
arithmetic (`parseFloat`, `*`, `/`); the embedding models amounts as
exact rationals (`ℚ`), so the rate and fee constants (2500, 0.999,
1.001, 0.997) are the exact values the source writes.

External effects (the HTTP provider, the Prisma database write, the
random transaction hashes and timestamps) are passed in as explicit
function arguments, and the functions that perform outbound calls also
return the list of requests they issued, so that "no external call
occurs" is the statement that this list is empty.  A thrown JavaScript
exception is an `Except.error` carrying the message; a `try/catch` is a
`match` on it.
-/

namespace OKXDex

set_option linter.unusedVariables false

/-- ASCII lower-casing of one character, as JavaScript's `toLowerCase`
acts on the characters appearing in hex addresses and symbols. -/
def lowerChar (c : Char) : Char :=
  if 'A' ≤ c ∧ c ≤ 'Z' then Char.ofNat (c.toNat + 32) else c

/-- JavaScript's `String.prototype.toLowerCase` on ASCII strings. -/
def toLowerCase (s : String) : String :=
  String.mk (s.data.map lowerChar)

/-- ASCII upper-casing of one character (for `method.toUpperCase()`). -/
def upperChar (c : Char) : Char :=
  if 'a' ≤ c ∧ c ≤ 'z' then Char.ofNat (c.toNat - 32) else c

/-- JavaScript's `String.prototype.toUpperCase` on ASCII strings. -/
def toUpperCase (s : String) : String :=
  String.mk (s.data.map upperChar)

/-! ### Token address constants (OKXDexService constructor) -/

def ethAddress : String := "0xEeeeeEeeeEeEeeEeEeEeeEEEeeeeEeeeeeeeEEeE"

def wethAddress : String := "0x4200000000000000000000000000000000000006"

def usdcAddress : String := "0x833589fCD6eDb6E08f4c7C32D4f71b54bdA02913"

def usdtAddress : String := "0xfde4C96c8593536E31F229EA8f37b2ADa2699bb2"

/-- The `popularTokens['base-sepolia']` table: symbol/address pairs in
the source's insertion order. -/
def popularTokens : List (String × String) :=
  [("ETH", ethAddress),
   ("WETH", wethAddress),
   ("USDC", usdcAddress),
   ("USDT", usdtAddress)]

/-- `getTokenSymbol(tokenAddress, chainId)`: the first entry of the
popular-token table whose address matches case-insensitively, else
`'UNKNOWN'`.  The source reads `popularTokens[chainId] ||
popularTokens['base-sepolia']`, and `'base-sepolia'` is the only key of
`popularTokens`, so every `chainId` resolves to the same table. -/
def getTokenSymbol (tokenAddress : String) (chainId : String) : String :=
  match popularTokens.find? (fun p => toLowerCase p.2 == toLowerCase tokenAddress) with
  | some p => p.1
  | none => "UNKNOWN"

/-! ### Mock (sandbox) rate tables -/

/-- The `rates` object of `calculateMockSwapOutput`, keyed by
`fromSymbol + '_' + toSymbol`. -/
def rates : List (String × ℚ) :=
  [("ETH_USDC", 2500),
   ("ETH_USDT", 2500),
   ("USDC_ETH", 1 / 2500),
   ("USDT_ETH", 1 / 2500),
   ("USDC_USDT", 999 / 1000),
   ("USDT_USDC", 1001 / 1000),
   ("WETH_ETH", 1),
   ("ETH_WETH", 1)]

/-- The rate `rates[rateKey] || 1` for a symbol pair. -/
def mockRate (fromSymbol toSymbol : String) : ℚ :=
  match rates.find? (fun p => p.1 == fromSymbol ++ "_" ++ toSymbol) with
  | some p => p.2
  | none => 1

/-- `calculateMockSwapOutput(fromToken, toToken, amount, chainId)`:
`parseFloat(amount) * rate * 0.997` (the 0.3% fee simulation). -/
def calculateMockSwapOutput (fromToken toToken : String) (amount : ℚ)
    (chainId : String) : ℚ :=
  amount * mockRate (getTokenSymbol fromToken chainId) (getTokenSymbol toToken chainId)
    * (997 / 1000)

/-- The mock conversion applied inside `getSwapQuote`'s testnet branch:
three special-cased pairs, every other pair passed through unchanged.
Note: unlike `calculateMockSwapOutput`, no 0.997 fee factor appears. -/
def mockQuoteAmount (fromSymbol toSymbol : String) (amount : ℚ) : ℚ :=
  if fromSymbol = "ETH" ∧ toSymbol = "USDC" then amount * 2500
  else if fromSymbol = "USDC" ∧ toSymbol = "ETH" then amount / 2500
  else if fromSymbol = "USDC" ∧ toSymbol = "USDT" then amount * (999 / 1000)
  else amount

/-! ### Quote adapter (`getSwapQuote`) -/

/-- The parameters of one `getSwapQuote` call; also the query string
(`URLSearchParams`) sent to the provider on the live path. -/
structure SwapQuoteRequest where
  chainId : String
  fromTokenAddress : String
  toTokenAddress : String
  amount : ℚ
  slippage : String := "0.5"
  userWalletAddress : String
deriving DecidableEq, Repr

/-- One element of the provider's `data` array, and equally the mock
quote object built in the testnet branch.  `route` is the list of
`{dexName, percentage}` hops. -/
structure QuoteData where
  chainId : String
  fromTokenAddress : String
  toTokenAddress : String
  fromTokenAmount : ℚ
  toTokenAmount : ℚ
  estimatedGas : String
  tradeFee : String
  priceImpact : String
  route : List (String × Nat)
  slippage : String
deriving DecidableEq, Repr

/-- The value `getSwapQuote` resolves with: `{ success, error?, data }`. -/
structure QuoteResult where
  success : Bool
  error : Option String := none
  data : Option QuoteData := none
deriving DecidableEq, Repr

/-- The provider's response envelope `{ code, msg, data }`. -/
structure ProviderEnvelope where
  code : String
  msg : String
  data : List QuoteData
deriving DecidableEq, Repr

/-- A provider for the live path: consumes the query parameters and
either returns an envelope or throws (network error, timeout). -/
def QuoteProvider : Type := SwapQuoteRequest → Except String ProviderEnvelope

/-- The testnet branch of `getSwapQuote`: builds the mock quote from
`mockQuoteAmount` and always resolves successfully, with no network
call. -/
def getSwapQuoteSandbox (req : SwapQuoteRequest) : QuoteResult :=
  let fromSymbol := getTokenSymbol req.fromTokenAddress req.chainId
  let toSymbol := getTokenSymbol req.toTokenAddress req.chainId
  { success := true
    error := none
    data := some
      { chainId := req.chainId
        fromTokenAddress := req.fromTokenAddress
        toTokenAddress := req.toTokenAddress
        fromTokenAmount := req.amount
        toTokenAmount := mockQuoteAmount fromSymbol toSymbol req.amount
        estimatedGas := "21000"
        tradeFee := "0.1"
        priceImpact := "0.01"
        route := [("Uniswap V3", 100)]
        slippage := req.slippage } }

/-- `getSwapQuote`, with the list of queries it sent to the provider.
Testnet mode computes the mock quote locally (empty query list); the
live path issues one GET, treats an envelope code other than `'0'` as a
thrown `OKX API Error` (caught by the surrounding `try`), and on
success resolves with `data[0] || null`. -/
def getSwapQuoteRun (testnetMode : Bool) (provider : QuoteProvider)
    (req : SwapQuoteRequest) : QuoteResult × List SwapQuoteRequest :=
  if testnetMode then
    (getSwapQuoteSandbox req, [])
  else
    match provider req with
    | Except.error e => ({ success := false, error := some e, data := none }, [req])
    | Except.ok env =>
      if env.code ≠ "0" then
        ({ success := false
           error := some ("OKX API Error: " ++ (if env.msg = "" then "Unknown error" else env.msg))
           data := none }, [req])
      else
        ({ success := true, error := none, data := env.data.head? }, [req])

/-- The resolved value of `getSwapQuote`. -/
def getSwapQuote (testnetMode : Bool) (provider : QuoteProvider)
    (req : SwapQuoteRequest) : QuoteResult :=
  (getSwapQuoteRun testnetMode provider req).1

/-! ### Route selector (`calculatePaymentRoute`) -/

/-- The parameters of one `calculatePaymentRoute` call. -/
structure RouteRequest where
  payerPreferredToken : String
  payeeRequiredToken : String
  amount : ℚ
  chainId : String
  userWalletAddress : String
deriving DecidableEq, Repr

/-- The `route` field of a payment-route object: the literal string
`'direct'` on the direct path, the quote's hop list otherwise. -/
inductive RouteInfo where
  | str (s : String)
  | hops (l : List (String × Nat))
deriving DecidableEq, Repr

/-- The plain object `calculatePaymentRoute` resolves with; a field the
source's object literal omits is `none`. -/
structure PaymentRoute where
  swapRequired : Bool
  directPayment : Option Bool := none
  swapPossible : Option Bool := none
  inputAmount : Option ℚ := none
  outputAmount : Option ℚ := none
  estimatedGas : Option String := none
  tradeFee : Option String := none
  priceImpact : Option String := none
  route : Option RouteInfo := none
  slippage : Option String := none
  error : Option String := none
deriving DecidableEq, Repr

/-- The direct (no-swap) result of `calculatePaymentRoute`. -/
def directRecord (amount : ℚ) : PaymentRoute :=
  { swapRequired := false
    directPayment := some true
    inputAmount := some amount
    outputAmount := some amount
    route := some (RouteInfo.str "direct") }

/-- The result of `calculatePaymentRoute` when a swap is possible,
built from the quote's data. -/
def swapResolvedRecord (amount : ℚ) (d : QuoteData) : PaymentRoute :=
  { swapRequired := true
    swapPossible := some true
    inputAmount := some amount
    outputAmount := some d.toTokenAmount
    estimatedGas := some d.estimatedGas
    tradeFee := some d.tradeFee
    priceImpact := some d.priceImpact
    route := some (RouteInfo.hops d.route)
    slippage := some d.slippage }

/-- The result of `calculatePaymentRoute` when the quote step fails. -/
def swapUnavailableRecord (reason : String) : PaymentRoute :=
  { swapRequired := true
    swapPossible := some false
    error := some reason }

/-- The quote request `calculatePaymentRoute` builds for its
`getSwapQuote` call (the payer token is the source, the payee token the
target, slippage left at its default). -/
def routeQuoteRequest (req : RouteRequest) : SwapQuoteRequest :=
  { chainId := req.chainId
    fromTokenAddress := req.payerPreferredToken
    toTokenAddress := req.payeeRequiredToken
    amount := req.amount
    slippage := "0.5"
    userWalletAddress := req.userWalletAddress }

/-- How `calculatePaymentRoute` interprets the awaited quote result (an
`Except.error` is a thrown exception).  A failed quote becomes
`{ swapRequired: true, swapPossible: false, error: quoteResult.error }`;
on success with `data: null`, reading `quoteResult.data.toTokenAmount`
throws a `TypeError`, which propagates to the `catch`. -/
def routeFromQuote (amount : ℚ) (r : Except String QuoteResult) :
    Except String PaymentRoute :=
  match r with
  | Except.error e => Except.error e
  | Except.ok quoteResult =>
    if quoteResult.success = false then
      Except.ok { swapRequired := true
                  swapPossible := some false
                  error := quoteResult.error }
    else
      match quoteResult.data with
      | none => Except.error "Cannot read properties of null (reading 'toTokenAmount')"
      | some d => Except.ok (swapResolvedRecord amount d)

/-- The body of `calculatePaymentRoute` up to its `catch`, together
with the quote calls it made: the case-insensitive same-token test
short-circuits to the direct result before the quote step. -/
def calculatePaymentRouteBody (quote : SwapQuoteRequest → Except String QuoteResult)
    (req : RouteRequest) : Except String PaymentRoute × List SwapQuoteRequest :=
  if toLowerCase req.payerPreferredToken = toLowerCase req.payeeRequiredToken then
    (Except.ok (directRecord req.amount), [])
  else
    (routeFromQuote req.amount (quote (routeQuoteRequest req)), [routeQuoteRequest req])

/-- The `catch (error)` of `calculatePaymentRoute`: a thrown error is
mapped to `{ swapRequired: true, swapPossible: false, error:
error.message }`, so the caller always receives a plain value. -/
def catchRoute : Except String PaymentRoute → PaymentRoute
  | Except.ok r => r
  | Except.error e => swapUnavailableRecord e

/-- `calculatePaymentRoute` with its quote-call trace. -/
def calculatePaymentRouteRun (quote : SwapQuoteRequest → Except String QuoteResult)
    (req : RouteRequest) : PaymentRoute × List SwapQuoteRequest :=
  (catchRoute (calculatePaymentRouteBody quote req).1, (calculatePaymentRouteBody quote req).2)

/-- The resolved value of `calculatePaymentRoute`. -/
def calculatePaymentRoute (quote : SwapQuoteRequest → Except String QuoteResult)
    (req : RouteRequest) : PaymentRoute :=
  (calculatePaymentRouteRun quote req).1

/-- The quote adapter as `calculatePaymentRoute` actually calls it:
`getSwapQuote` never throws (it catches internally), so the adapter
always returns a `QuoteResult` value. -/
def quoteAdapter (testnetMode : Bool) (provider : QuoteProvider) :
    SwapQuoteRequest → Except String QuoteResult :=
  fun req => Except.ok (getSwapQuote testnetMode provider req)

/-! ### Audit logging (`logSwapTransaction`) and swap execution -/

/-- The argument object of `logSwapTransaction`. -/
structure SwapLogData where
  paymentRequestId : Option String := none
  fromToken : String
  toToken : String
  fromAmount : ℚ
  toAmount : ℚ
  transactionHash : String
  chainId : String
  status : String
deriving DecidableEq, Repr

/-- The Prisma `Transaction` row `logSwapTransaction` writes (its
generated `id`, JSON `metadata` and timestamps are owned by the database
layer, abstracted by the write oracle). -/
structure TransactionRecord where
  type : String
  status : String
  amount : ℚ
  currency : String
  toAddress : String
  fromAddress : String
  txHash : String
  network : String
deriving DecidableEq, Repr

/-- The row built from the swap data, field by field as the source's
`prisma.transaction.create` call writes it (`status || 'PENDING'`). -/
def mkTransactionRecord (d : SwapLogData) : TransactionRecord :=
  { type := "SWAP"
    status := if d.status = "" then "PENDING" else d.status
    amount := d.fromAmount
    currency := getTokenSymbol d.fromToken d.chainId
    toAddress := d.toToken
    fromAddress := d.fromToken
    txHash := d.transactionHash
    network := d.chainId }

/-- `logSwapTransaction(swapData)` with the database write abstracted
as `dbCreate`: a failed write is caught, logged and swallowed, so the
function always resolves (never rejects). -/
def logSwapTransaction (dbCreate : TransactionRecord → Except String Unit)
    (d : SwapLogData) : Except String Unit :=
  match dbCreate (mkTransactionRecord d) with
  | Except.ok _ => Except.ok ()
  | Except.error _ => Except.ok ()

/-- The parameters of one `executeSwap` call. -/
structure ExecuteSwapRequest where
  chainId : String
  fromTokenAddress : String
  toTokenAddress : String
  amount : ℚ
  slippage : String := "0.5"
  userWalletAddress : String
  paymentRequestId : Option String := none
deriving DecidableEq, Repr

/-- The mock swap result object of `executeSwap`'s testnet branch (its
`error` field is only set by the outer `catch`). -/
structure SwapResult where
  success : Bool
  transactionHash : Option String := none
  fromTokenAmount : Option ℚ := none
  toTokenAmount : Option ℚ := none
  gasUsed : Option String := none
  gasPrice : Option String := none
  tradeFee : Option String := none
  timestamp : Option String := none
  explorerUrl : Option String := none
  error : Option String := none
deriving DecidableEq, Repr

/-- The testnet branch of `executeSwap`: builds the mock result with
`calculateMockSwapOutput`, logs the swap when a `paymentRequestId` is
present, and returns the mock result.  The two random 32-byte hashes
and the ISO timestamp are parameters (`txHash`, `explorerTxHash`,
`timestamp`); the outer `catch` maps a thrown error to
`{ success: false, error }`. -/
def executeSwapTestnet (dbCreate : TransactionRecord → Except String Unit)
    (txHash explorerTxHash timestamp : String)
    (req : ExecuteSwapRequest) : SwapResult :=
  let mockSwapResult : SwapResult :=
    { success := true
      transactionHash := some ("0x" ++ txHash)
      fromTokenAmount := some req.amount
      toTokenAmount := some (calculateMockSwapOutput req.fromTokenAddress
        req.toTokenAddress req.amount req.chainId)
      gasUsed := some "21000"
      gasPrice := some "20000000000"
      tradeFee := some "0.1"
      timestamp := some timestamp
      explorerUrl := some ("https://sepolia.basescan.org/tx/0x" ++ explorerTxHash) }
  let logOutcome : Except String Unit :=
    match req.paymentRequestId with
    | some pid =>
      logSwapTransaction dbCreate
        { paymentRequestId := some pid
          fromToken := req.fromTokenAddress
          toToken := req.toTokenAddress
          fromAmount := req.amount
          toAmount := (calculateMockSwapOutput req.fromTokenAddress
            req.toTokenAddress req.amount req.chainId)
          transactionHash := "0x" ++ txHash
          chainId := req.chainId
          status := "completed" }
    | none => Except.ok ()
  match logOutcome with
  | Except.ok _ => mockSwapResult
  | Except.error e => { success := false, error := some e }

/-! ### Configuration and authentication headers -/

/-- The process environment variables the constructor reads. -/
structure EnvVars where
  nodeEnv : Option String := none
  okxApiKey : Option String := none
  okxSecretKey : Option String := none
  okxPassphrase : Option String := none
  okxProjectId : Option String := none
  okxDexBaseUrl : Option String := none
deriving DecidableEq, Repr

/-- `this.config` as built by the `OKXDexService` constructor. -/
structure OKXConfig where
  apiKey : String
  secretKey : String
  passphrase : String
  projectId : String
  baseUrl : String
  testnetMode : Bool
deriving DecidableEq, Repr

/-- The constructor: `isTestnetMode = NODE_ENV !== 'production'`, each
credential falling back to its built-in mock default. -/
def mkOKXConfig (env : EnvVars) : OKXConfig :=
  { apiKey := env.okxApiKey.getD "mock-okx-api-key"
    secretKey := env.okxSecretKey.getD "mock-okx-secret"
    passphrase := env.okxPassphrase.getD "mock-passphrase"
    projectId := env.okxProjectId.getD "mock-project-id"
    baseUrl := env.okxDexBaseUrl.getD "https://web3.okx.com/api/v5/dex"
    testnetMode := if env.nodeEnv = some "production" then false else true }

/-- `generateAuthHeaders(timestamp, method, requestPath, queryString,
body)` as the ordered list of header name/value pairs; `hmacSha256Base64
secret message` abstracts `crypto.createHmac('sha256', ...)`. -/
def generateAuthHeaders (hmacSha256Base64 : String → String → String)
    (cfg : OKXConfig) (timestamp method requestPath queryString bodyStr : String) :
    List (String × String) :=
  if cfg.testnetMode = true ∨ cfg.apiKey = "mock-okx-api-key" then
    [("Content-Type", "application/json"),
     ("X-Mock-Mode", "true")]
  else
    let message := timestamp ++ toUpperCase method ++ requestPath ++ queryString ++ bodyStr
    let signature := hmacSha256Base64 cfg.secretKey message
    [("Content-Type", "application/json"),
     ("OK-ACCESS-KEY", cfg.apiKey),
     ("OK-ACCESS-SIGN", signature),
     ("OK-ACCESS-TIMESTAMP", timestamp),
     ("OK-ACCESS-PASSPHRASE", cfg.passphrase),
     ("OK-ACCESS-PROJECT", cfg.projectId)]

/-! ### Helper lemmas -/

/-- `getTokenSymbol` only ever returns one of the four table symbols or
`'UNKNOWN'`. -/
theorem getTokenSymbol_cases (tokenAddress chainId : String) :
    getTokenSymbol tokenAddress chainId = "ETH" ∨ getTokenSymbol tokenAddress chainId = "WETH" ∨
    getTokenSymbol tokenAddress chainId = "USDC" ∨ getTokenSymbol tokenAddress chainId = "USDT" ∨
    getTokenSymbol tokenAddress chainId = "UNKNOWN" := by
  unfold getTokenSymbol
  cases hf : popularTokens.find? (fun p => toLowerCase p.2 == toLowerCase tokenAddress) with
  | none => simp
  | some p =>
    have hmem : p ∈ popularTokens := List.mem_of_find?_eq_some hf
    simp [popularTokens] at hmem
    rcases hmem with h | h | h | h <;> subst h <;> simp

/-- When the real quote adapter reports failure, it always carries a
reason string in `error`. -/
theorem getSwapQuote_failure_error (testnetMode : Bool) (provider : QuoteProvider)
    (r : SwapQuoteRequest) :
    ∀ q, quoteAdapter testnetMode provider r = Except.ok q →
      q.success = false → ∃ e, q.error = some e := by
  intro q hq hs
  have hq' : q = getSwapQuote testnetMode provider r := by
    have := hq.symm
    simpa [quoteAdapter] using this
  subst hq'
  unfold getSwapQuote getSwapQuoteRun at hs ⊢
  cases testnetMode with
  | true => simp [getSwapQuoteSandbox] at hs
  | false =>
    simp only [Bool.false_eq_true, if_false] at hs ⊢
    cases hp : provider r with
    | error e => exact ⟨e, rfl⟩
    | ok env =>
      rw [hp] at hs
      by_cases hc : env.code = "0"
      · simp [hc] at hs
      · refine ⟨"OKX API Error: " ++ (if env.msg = "" then "Unknown error" else env.msg), ?_⟩
        simp [hc]

/-- Interpreting any quote outcome whose failures carry a reason, then
catching, yields either a resolved-swap object or the unavailable
object with a reason string. -/
theorem routeFromQuote_shape (amount : ℚ) (r : Except String QuoteResult)
    (herr : ∀ q, r = Except.ok q → q.success = false → ∃ e, q.error = some e) :
    (∃ d, catchRoute (routeFromQuote amount r) = swapResolvedRecord amount d) ∨
    (∃ reason, catchRoute (routeFromQuote amount r) = swapUnavailableRecord reason) := by
  cases r with
  | error e => exact Or.inr ⟨e, rfl⟩
  | ok q =>
    by_cases hs : q.success = false
    · obtain ⟨e, he⟩ := herr q rfl hs
      refine Or.inr ⟨e, ?_⟩
      simp [routeFromQuote, hs, catchRoute, he, swapUnavailableRecord]
    · cases hd : q.data with
      | none =>
        refine Or.inr ⟨"Cannot read properties of null (reading 'toTokenAmount')", ?_⟩
        simp [routeFromQuote, hs, hd, catchRoute]
      | some d =>
        exact Or.inl ⟨d, by simp [routeFromQuote, hs, hd, catchRoute]⟩

/-- `logSwapTransaction` resolves for every database behavior: the
`catch` swallows a failed `Transaction` write. -/
theorem logSwapTransaction_ok (dbCreate : TransactionRecord → Except String Unit)
    (d : SwapLogData) : logSwapTransaction dbCreate d = Except.ok () := by
  unfold logSwapTransaction
  cases dbCreate (mkTransactionRecord d) <;> rfl

/-! ### Claim theorems -/

/-- C1: when the payer's and the payee's token addresses are equal
under case-insensitive comparison, `calculatePaymentRoute` returns the
object `{ swapRequired: false, directPayment: true, inputAmount:
amount, outputAmount: amount, route: 'direct' }` and issues no quote
request (its call trace is empty), for every quote adapter. -/
theorem calculatePaymentRoute_direct_no_call
    (quote : SwapQuoteRequest → Except String QuoteResult) (req : RouteRequest)
    (h : toLowerCase req.payerPreferredToken = toLowerCase req.payeeRequiredToken) :
    calculatePaymentRouteRun quote req = (directRecord req.amount, []) := by
  unfold calculatePaymentRouteRun calculatePaymentRouteBody
  rw [if_pos h]
  rfl

/-- Route request for the direct-path witness: the ETH placeholder
address against its lower-cased form, differing only in letter case. -/
def directWitnessReq : RouteRequest :=
  { payerPreferredToken := "0xEeeeeEeeeEeEeeEeEeEeeEEEeeeeEeeeeeeeEEeE"
    payeeRequiredToken := "0xeeeeeeeeeeeeeeeeeeeeeeeeeeeeeeeeeeeeeeee"
    amount := 100
    chainId := "84532"
    userWalletAddress := "0xwallet" }

/-- Witness for C1 at a concrete input: addresses differing only in
case short-circuit to the direct result with an empty call trace, even
when the quote adapter would throw. -/
theorem calculatePaymentRoute_direct_no_call_witness :
    calculatePaymentRouteRun (fun _ => Except.error "unreachable") directWitnessReq
      = (directRecord 100, []) :=
  calculatePaymentRoute_direct_no_call (fun _ => Except.error "unreachable")
    directWitnessReq (by decide)

/-- Sandbox quote request: 1 ETH to USDC on Base Sepolia. -/
def ethToUsdcOneReq : SwapQuoteRequest :=
  { chainId := "84532"
    fromTokenAddress := ethAddress
    toTokenAddress := usdcAddress
    amount := 1
    userWalletAddress := "0xwallet" }

/-- Sandbox quote request: 100 USDC to USDT on Base Sepolia. -/
def usdcToUsdtHundredReq : SwapQuoteRequest :=
  { chainId := "84532"
    fromTokenAddress := usdcAddress
    toTokenAddress := usdtAddress
    amount := 100
    userWalletAddress := "0xwallet" }

/-- C2 counterexample: the claim says the sandbox quote for 1 ETH to
USDC is `2500 * 0.997`, but `getSwapQuote`'s testnet branch applies no
fee factor at all and returns exactly 2500, which differs from the
claimed value. -/
theorem getSwapQuote_sandbox_fee_counterexample :
    ((getSwapQuoteSandbox ethToUsdcOneReq).data.map fun d => d.toTokenAmount) = some 2500 ∧
    (2500 : ℚ) ≠ 2500 * (997 / 1000) := by
  constructor
  · have hf : getTokenSymbol ethAddress "84532" = "ETH" := by decide
    have ht : getTokenSymbol usdcAddress "84532" = "USDC" := by decide
    simp [getSwapQuoteSandbox, ethToUsdcOneReq, hf, ht, mockQuoteAmount]
  · norm_num

/-- C2 (amended): in sandbox mode `getSwapQuote` computes the quote
from its fixed pairwise rate table with no fee factor: 1 ETH to USDC
yields exactly 2500, 100 USDC to USDT yields exactly `100 * 0.999`, and
the provider is never consulted (the query trace is empty), for every
provider. -/
theorem getSwapQuote_sandbox_rate_table (provider : QuoteProvider) :
    ((getSwapQuoteRun true provider ethToUsdcOneReq).1.data.map fun d => d.toTokenAmount)
      = some 2500
    ∧ (getSwapQuoteRun true provider ethToUsdcOneReq).2 = []
    ∧ ((getSwapQuoteRun true provider usdcToUsdtHundredReq).1.data.map fun d => d.toTokenAmount)
      = some (100 * (999 / 1000))
    ∧ (getSwapQuoteRun true provider usdcToUsdtHundredReq).2 = [] := by
  have hf : getTokenSymbol ethAddress "84532" = "ETH" := by decide
  have ht : getTokenSymbol usdcAddress "84532" = "USDC" := by decide
  have ht2 : getTokenSymbol usdtAddress "84532" = "USDT" := by decide
  refine ⟨?_, rfl, ?_, rfl⟩
  · simp [getSwapQuoteRun, getSwapQuoteSandbox, ethToUsdcOneReq, hf, ht, mockQuoteAmount]
  · simp [getSwapQuoteRun, getSwapQuoteSandbox, usdcToUsdtHundredReq, ht2, ht, hf, mockQuoteAmount]

/-- C3: `calculatePaymentRoute` over the real quote adapter never
throws: in every mode, for every provider behavior (rejection, thrown
transport error, malformed or empty envelope) and every request, it
returns a plain value that is either the direct object, a resolved swap
object, or `{ swapRequired: true, swapPossible: false, error: reason }`
with a reason string. -/
theorem calculatePaymentRoute_never_throws (testnetMode : Bool) (provider : QuoteProvider)
    (req : RouteRequest) :
    (∃ a, calculatePaymentRoute (quoteAdapter testnetMode provider) req = directRecord a) ∨
    (∃ d, calculatePaymentRoute (quoteAdapter testnetMode provider) req
      = swapResolvedRecord req.amount d) ∨
    (∃ reason, calculatePaymentRoute (quoteAdapter testnetMode provider) req
      = swapUnavailableRecord reason) := by
  by_cases h : toLowerCase req.payerPreferredToken = toLowerCase req.payeeRequiredToken
  · left
    refine ⟨req.amount, ?_⟩
    unfold calculatePaymentRoute calculatePaymentRouteRun calculatePaymentRouteBody
    rw [if_pos h]
    rfl
  · have hroute : calculatePaymentRoute (quoteAdapter testnetMode provider) req
        = catchRoute (routeFromQuote req.amount
            (quoteAdapter testnetMode provider (routeQuoteRequest req))) := by
      unfold calculatePaymentRoute calculatePaymentRouteRun calculatePaymentRouteBody
      rw [if_neg h]
    rw [hroute]
    have hshape := routeFromQuote_shape req.amount
      (quoteAdapter testnetMode provider (routeQuoteRequest req))
      (getSwapQuote_failure_error testnetMode provider (routeQuoteRequest req))
    rcases hshape with ⟨d, hd⟩ | ⟨reason, hr⟩
    · exact Or.inr (Or.inl ⟨d, hd⟩)
    · exact Or.inr (Or.inr ⟨reason, hr⟩)

/-- Sandbox quote request with a zero amount. -/
def zeroAmountReq : SwapQuoteRequest :=
  { chainId := "84532"
    fromTokenAddress := ethAddress
    toTokenAddress := usdcAddress
    amount := 0
    userWalletAddress := "0xwallet" }

/-- C4 (code evaluated at the failing input): `getSwapQuote` performs
no validation of the amount.  In sandbox mode a zero amount is passed
straight into the mock computation and resolves successfully with
`toTokenAmount` 0, and in live mode the provider is called with the
zero amount in the query (for every provider, the issued query list is
exactly the unvalidated request). -/
theorem getSwapQuote_zero_amount_not_rejected :
    (getSwapQuoteSandbox zeroAmountReq).success = true ∧
    (getSwapQuoteSandbox zeroAmountReq).error = none ∧
    ((getSwapQuoteSandbox zeroAmountReq).data.map fun d => d.toTokenAmount) = some 0 ∧
    ∀ provider : QuoteProvider, (getSwapQuoteRun false provider zeroAmountReq).2 = [zeroAmountReq] := by
  have hf : getTokenSymbol ethAddress "84532" = "ETH" := by decide
  have ht : getTokenSymbol usdcAddress "84532" = "USDC" := by decide
  refine ⟨rfl, rfl, ?_, ?_⟩
  · simp [getSwapQuoteSandbox, zeroAmountReq, hf, ht, mockQuoteAmount]
  · intro provider
    unfold getSwapQuoteRun
    cases provider zeroAmountReq with
    | error e => rfl
    | ok env => by_cases hc : env.code = "0" <;> simp [hc]

/-- C5: in live mode, a provider envelope whose `code` is not `'0'`
makes `getSwapQuote` return `{ success: false, error: reason, data:
null }` (no exception), and `calculatePaymentRoute` built on that
adapter returns the swap-unavailable object carrying the same reason. -/
theorem getSwapQuote_live_error_envelope (req : SwapQuoteRequest) (rreq : RouteRequest)
    (env : ProviderEnvelope)
    (hcode : ¬ env.code = "0")
    (hdiff : ¬ toLowerCase rreq.payerPreferredToken = toLowerCase rreq.payeeRequiredToken) :
    getSwapQuote false (fun _ => Except.ok env) req
      = { success := false
          error := some ("OKX API Error: " ++ (if env.msg = "" then "Unknown error" else env.msg))
          data := none } ∧
    calculatePaymentRoute (quoteAdapter false (fun _ => Except.ok env)) rreq
      = swapUnavailableRecord
          ("OKX API Error: " ++ (if env.msg = "" then "Unknown error" else env.msg)) := by
  constructor
  · simp [getSwapQuote, getSwapQuoteRun, hcode]
  · unfold calculatePaymentRoute calculatePaymentRouteRun calculatePaymentRouteBody quoteAdapter
      getSwapQuote getSwapQuoteRun
    rw [if_neg hdiff]
    simp [hcode, routeFromQuote, catchRoute, swapUnavailableRecord]

/-- Provider envelope for the C5 witness: a non-success code. -/
def failEnvelope : ProviderEnvelope :=
  { code := "51000", msg := "Insufficient liquidity", data := [] }

/-- Route request for the C5 witness: ETH to USDC, distinct tokens. -/
def ethToUsdcRouteReq : RouteRequest :=
  { payerPreferredToken := ethAddress
    payeeRequiredToken := usdcAddress
    amount := 100
    chainId := "84532"
    userWalletAddress := "0xwallet" }

/-- Witness for C5 at a concrete input: envelope code `'51000'` turns
into a quote failure value and an unavailable route, with no
exception. -/
theorem getSwapQuote_live_error_envelope_witness :
    getSwapQuote false (fun _ => Except.ok failEnvelope) ethToUsdcOneReq
      = { success := false
          error := some ("OKX API Error: "
            ++ (if failEnvelope.msg = "" then "Unknown error" else failEnvelope.msg))
          data := none } ∧
    calculatePaymentRoute (quoteAdapter false (fun _ => Except.ok failEnvelope)) ethToUsdcRouteReq
      = swapUnavailableRecord ("OKX API Error: "
          ++ (if failEnvelope.msg = "" then "Unknown error" else failEnvelope.msg)) :=
  getSwapQuote_live_error_envelope ethToUsdcOneReq ethToUsdcRouteReq failEnvelope
    (by decide) (by decide)

/-- C7: a failed audit write is swallowed — `logSwapTransaction`
resolves for every database behavior, and `executeSwap`'s testnet
branch returns the same result whether the `Transaction` write succeeds
or fails (any two database behaviors give identical results). -/
theorem logSwapTransaction_failure_swallowed
    (db db1 db2 : TransactionRecord → Except String Unit) (d : SwapLogData)
    (txHash explorerTxHash timestamp : String) (req : ExecuteSwapRequest) :
    logSwapTransaction db d = Except.ok () ∧
    executeSwapTestnet db1 txHash explorerTxHash timestamp req
      = executeSwapTestnet db2 txHash explorerTxHash timestamp req := by
  refine ⟨logSwapTransaction_ok db d, ?_⟩
  unfold executeSwapTestnet
  cases hp : req.paymentRequestId with
  | none => rfl
  | some pid =>
    dsimp only
    rw [logSwapTransaction_ok db1, logSwapTransaction_ok db2]

/-- C8: in sandbox mode, every token pair outside the three
special-cased ones is passed through with `toTokenAmount` exactly equal
to the input amount (no rate, no fee), and the sandbox quote is always
a success (never unavailable). -/
theorem getSwapQuoteSandbox_pass_through (req : SwapQuoteRequest)
    (h1 : ¬ (getTokenSymbol req.fromTokenAddress req.chainId = "ETH" ∧
             getTokenSymbol req.toTokenAddress req.chainId = "USDC"))
    (h2 : ¬ (getTokenSymbol req.fromTokenAddress req.chainId = "USDC" ∧
             getTokenSymbol req.toTokenAddress req.chainId = "ETH"))
    (h3 : ¬ (getTokenSymbol req.fromTokenAddress req.chainId = "USDC" ∧
             getTokenSymbol req.toTokenAddress req.chainId = "USDT")) :
    getSwapQuoteSandbox req
      = { success := true
          error := none
          data := some
            { chainId := req.chainId
              fromTokenAddress := req.fromTokenAddress
              toTokenAddress := req.toTokenAddress
              fromTokenAmount := req.amount
              toTokenAmount := req.amount
              estimatedGas := "21000"
              tradeFee := "0.1"
              priceImpact := "0.01"
              route := [("Uniswap V3", 100)]
              slippage := req.slippage } }
    ∧ ∀ r : SwapQuoteRequest,
        (getSwapQuoteSandbox r).success = true ∧ (getSwapQuoteSandbox r).error = none := by
  constructor
  · simp only [getSwapQuoteSandbox]
    unfold mockQuoteAmount
    rw [if_neg h1, if_neg h2, if_neg h3]
  · intro r
    exact ⟨rfl, rfl⟩

/-- Sandbox quote request for the C8 witness: 7 USDT to USDC, a pair
outside the three special-cased conversions. -/
def usdtToUsdcSevenReq : SwapQuoteRequest :=
  { chainId := "84532"
    fromTokenAddress := usdtAddress
    toTokenAddress := usdcAddress
    amount := 7
    userWalletAddress := "0xwallet" }

/-- Witness for C8 at a concrete input: USDT to USDC passes 7 through
unchanged. -/
theorem getSwapQuoteSandbox_pass_through_witness :
    getSwapQuoteSandbox usdtToUsdcSevenReq
      = { success := true
          error := none
          data := some
            { chainId := "84532"
              fromTokenAddress := usdtAddress
              toTokenAddress := usdcAddress
              fromTokenAmount := 7
              toTokenAmount := 7
              estimatedGas := "21000"
              tradeFee := "0.1"
              priceImpact := "0.01"
              route := [("Uniswap V3", 100)]
              slippage := "0.5" } }
    ∧ ∀ r : SwapQuoteRequest,
        (getSwapQuoteSandbox r).success = true ∧ (getSwapQuoteSandbox r).error = none :=
  getSwapQuoteSandbox_pass_through usdtToUsdcSevenReq (by decide) (by decide) (by decide)

/-- C9: the sandbox quote path and the sandbox execution path disagree:
for every pair whose table rate is not 1 and every positive amount,
`executeSwap`'s testnet branch reports `amount * rate * 0.997` (through
`calculateMockSwapOutput`) while `getSwapQuote`'s testnet branch reports
a different number, so the mock quoted and executed amounts are never
equal. -/
theorem mockQuote_vs_execute_mismatch (fromToken toToken chainId wallet : String)
    (a : ℚ) (db : TransactionRecord → Except String Unit)
    (txHash explorerTxHash timestamp : String)
    (hrate : ¬ mockRate (getTokenSymbol fromToken chainId)
        (getTokenSymbol toToken chainId) = 1)
    (ha : 0 < a) :
    (executeSwapTestnet db txHash explorerTxHash timestamp
        { chainId := chainId
          fromTokenAddress := fromToken
          toTokenAddress := toToken
          amount := a
          userWalletAddress := wallet }).toTokenAmount
      = some (a * mockRate (getTokenSymbol fromToken chainId)
          (getTokenSymbol toToken chainId) * (997 / 1000))
    ∧ ((getSwapQuoteSandbox
        { chainId := chainId
          fromTokenAddress := fromToken
          toTokenAddress := toToken
          amount := a
          userWalletAddress := wallet }).data.map fun d => d.toTokenAmount)
      ≠ some (calculateMockSwapOutput fromToken toToken a chainId) := by
  constructor
  · rfl
  · show ¬ some (mockQuoteAmount (getTokenSymbol fromToken chainId)
        (getTokenSymbol toToken chainId) a)
      = some (a * mockRate (getTokenSymbol fromToken chainId)
          (getTokenSymbol toToken chainId) * (997 / 1000))
    have hf := getTokenSymbol_cases fromToken chainId
    have ht := getTokenSymbol_cases toToken chainId
    rcases hf with hf | hf | hf | hf | hf <;> rcases ht with ht | ht | ht | ht | ht <;>
        rw [hf, ht] at hrate ⊢ <;>
      try exact absurd rfl hrate
    · intro heq
      simp only [Option.some.injEq] at heq
      rw [show mockQuoteAmount "ETH" "USDC" a = a * 2500 from rfl,
        show mockRate "ETH" "USDC" = (2500 : ℚ) from rfl] at heq
      linarith
    · intro heq
      simp only [Option.some.injEq] at heq
      rw [show mockQuoteAmount "ETH" "USDT" a = a from rfl,
        show mockRate "ETH" "USDT" = (2500 : ℚ) from rfl] at heq
      linarith
    · intro heq
      simp only [Option.some.injEq] at heq
      rw [show mockQuoteAmount "USDC" "ETH" a = a / 2500 from rfl,
        show mockRate "USDC" "ETH" = (1 / 2500 : ℚ) from rfl] at heq
      linarith
    · intro heq
      simp only [Option.some.injEq] at heq
      rw [show mockQuoteAmount "USDC" "USDT" a = a * (999 / 1000) from rfl,
        show mockRate "USDC" "USDT" = (999 / 1000 : ℚ) from rfl] at heq
      linarith
    · intro heq
      simp only [Option.some.injEq] at heq
      rw [show mockQuoteAmount "USDT" "ETH" a = a from rfl,
        show mockRate "USDT" "ETH" = (1 / 2500 : ℚ) from rfl] at heq
      linarith
    · intro heq
      simp only [Option.some.injEq] at heq
      rw [show mockQuoteAmount "USDT" "USDC" a = a from rfl,
        show mockRate "USDT" "USDC" = (1001 / 1000 : ℚ) from rfl] at heq
      linarith

/-- Witness for C9 at a concrete input: 1 ETH to USDC is quoted at 2500
but executed at `2500 * 0.997`. -/
theorem mockQuote_vs_execute_mismatch_witness :
    (executeSwapTestnet (fun _ => Except.ok ()) "ab" "cd" "2025-01-01T00:00:00.000Z"
        { chainId := "84532"
          fromTokenAddress := ethAddress
          toTokenAddress := usdcAddress
          amount := 1
          userWalletAddress := "0xwallet" }).toTokenAmount
      = some (1 * mockRate (getTokenSymbol ethAddress "84532")
          (getTokenSymbol usdcAddress "84532") * (997 / 1000))
    ∧ ((getSwapQuoteSandbox
        { chainId := "84532"
          fromTokenAddress := ethAddress
          toTokenAddress := usdcAddress
          amount := 1
          userWalletAddress := "0xwallet" }).data.map fun d => d.toTokenAmount)
      ≠ some (calculateMockSwapOutput ethAddress usdcAddress 1 "84532") :=
  mockQuote_vs_execute_mismatch ethAddress usdcAddress "84532" "0xwallet" 1
    (fun _ => Except.ok ()) "ab" "cd" "2025-01-01T00:00:00.000Z"
    (by rw [show getTokenSymbol ethAddress "84532" = "ETH" from by decide,
          show getTokenSymbol usdcAddress "84532" = "USDC" from by decide,
          show mockRate "ETH" "USDC" = (2500 : ℚ) from rfl]
        norm_num)
    (by norm_num)

/-- C10: with the service configured for production (`NODE_ENV ===
'production'`) but the API key still at its built-in default
`'mock-okx-api-key'`, `generateAuthHeaders` returns only the
`Content-Type` and `X-Mock-Mode` headers — no signature, timestamp or
credential header is attached, so live requests go out unsigned. -/
theorem generateAuthHeaders_default_key_unsigned (env : EnvVars)
    (hmacSha256Base64 : String → String → String)
    (timestamp method requestPath queryString bodyStr : String)
    (hprod : env.nodeEnv = some "production")
    (hkey : (mkOKXConfig env).apiKey = "mock-okx-api-key") :
    generateAuthHeaders hmacSha256Base64 (mkOKXConfig env) timestamp method requestPath
        queryString bodyStr
      = [("Content-Type", "application/json"), ("X-Mock-Mode", "true")] := by
  unfold generateAuthHeaders
  rw [if_pos (Or.inr hkey)]

/-- Environment for the C10 witness: production mode with no OKX
credentials configured. -/
def prodEnvNoKey : EnvVars := { nodeEnv := some "production" }

/-- Witness for C10 at a concrete input: in production mode with the
default API key, only the mock headers are returned. -/
theorem generateAuthHeaders_default_key_unsigned_witness :
    generateAuthHeaders (fun _ _ => "sig") (mkOKXConfig prodEnvNoKey) "t" "get" "/p" "?q" ""
      = [("Content-Type", "application/json"), ("X-Mock-Mode", "true")] :=
  generateAuthHeaders_default_key_unsigned prodEnvNoKey (fun _ _ => "sig") "t" "get" "/p" "?q" ""
    (by decide) (by decide)

end OKXDex
